import Mathlib

/-!
Verification development for the MoneyMaster trading system.

Shallow embedding of the core bookkeeping logic:
* `src/trading/core/order.py`   — order data model,
* `src/trading/core/position.py` — position ledger (`Position.update_position`),
* `src/trading/core/risk.py`    — `RiskManager` (`check_order`, `check_position`,
  `update_pnl`, `reset_daily_pnl`),
* `src/trading/core/strategy.py` — `BaseStrategy.buy` / `sell`, the lifecycle
  state machine (`start` / `stop` / `pause` / `handle_error`), and the state
  persistence/broadcast behaviour of `_save_status`,
* `src/trading/clients/okx/ws_manager.py` — subscription bookkeeping of
  `OKXWebSocketManager` (`subscribe`, `unsubscribe`, `_resubscribe`),
* `src/api/websocket.py` — `ConnectionManager._process_broadcast_batch`.

Python `Decimal` values are modelled as `ℚ` (exact rational arithmetic);
`datetime` values are modelled as integer minute counts, calendar dates as
integer day indices.  Database writes, logging and network sends are modelled
as effect lists where a claim depends on them and omitted otherwise.
-/

namespace MoneyMaster

/-! ### Order data model (`src/trading/core/order.py`) -/

/-- `OrderType` from `order.py` (`MARKET` / `LIMIT`).  `check_order` never
reads this field; it distinguishes market orders by `order.price` being
absent (falsy). -/
inductive OrderType where
  | market
  | limit
deriving DecidableEq, Repr

/-- `OrderSide` from `order.py` (`BUY` / `SELL`). -/
inductive OrderSide where
  | buy
  | sell
deriving DecidableEq, Repr

/-- The `Order` dataclass fields read by the risk checks: side, quantity and
optional price (`None` for market orders).  The remaining fields (symbol,
status, ids, timestamps, fill tracking) are never read by the claims. -/
structure Order where
  order_type : OrderType
  side : OrderSide
  quantity : ℚ
  price : Option ℚ
deriving DecidableEq, Repr

/-! ### Position ledger (`src/trading/core/position.py`) -/

/-- The `Position` dataclass fields that the claims read.  `symbol`,
`unrealized_pnl` and `last_update_time` are omitted: no claim depends on
them (`unrealized_pnl` is only touched by `update_unrealized_pnl`). -/
structure Position where
  quantity : ℚ
  avg_price : ℚ
  realized_pnl : ℚ
  margin : ℚ
  leverage : ℤ
deriving DecidableEq, Repr

/-- `Position.position_value`: `quantity * avg_price`. -/
def position_value (p : Position) : ℚ := p.quantity * p.avg_price

/-- `Position.margin_ratio`: `margin / position_value if position_value > 0
else 0`. -/
def margin_ratio (p : Position) : ℚ :=
  if 0 < position_value p then p.margin / position_value p else 0

/-- `Position.update_position(filled_quantity, filled_price, is_buy)`.

Returns the post-call position together with `some message` when the call
raises.  The sell branch raises `ValueError` *before* any mutation, so the
original position is returned there.  In the buy branch with
`quantity ≠ 0` and `quantity + filled_quantity = 0` the Python code first
mutates `quantity` and then raises `decimal` division-by-zero when computing
the new average; that half-mutated state is returned with an error.  With
`quantity = 0` the buy branch sets `quantity := filled_quantity` and
`avg_price := filled_price` directly. -/
def updatePosition (p : Position) (filled_quantity filled_price : ℚ) :
    Bool → Position × Option String
  | true =>
    if p.quantity = 0 then
      ({ p with quantity := filled_quantity, avg_price := filled_price }, none)
    else if p.quantity + filled_quantity = 0 then
      ({ p with quantity := 0 }, some "decimal.DivisionByZero")
    else
      ({ p with
          quantity := p.quantity + filled_quantity,
          avg_price := (p.quantity * p.avg_price + filled_quantity * filled_price) /
            (p.quantity + filled_quantity) }, none)
  | false =>
    if p.quantity < filled_quantity then
      (p, some "卖出数量大于持仓数量")
    else
      let rp := (filled_price - p.avg_price) * filled_quantity
      let q' := p.quantity - filled_quantity
      ({ p with
          realized_pnl := p.realized_pnl + rp,
          quantity := q',
          avg_price := if q' = 0 then 0 else p.avg_price }, none)

/-! ### Risk engine (`src/trading/core/risk.py`) -/

/-- The `RiskLimit` dataclass, field for field. -/
structure RiskLimit where
  max_position_value : ℚ
  max_leverage : ℤ
  min_margin_ratio : ℚ
  max_daily_loss : ℚ
  max_order_value : ℚ
  min_order_value : ℚ
  price_deviation : ℚ
  total_capital : ℚ
  max_capital_usage : ℚ
  reserve_capital : ℚ
deriving DecidableEq, Repr

/-- The price at which the order is valued: Python's
`order.price or market_price`.  `or` yields the market price both when
`price` is `None` and when it is the falsy `Decimal('0')`. -/
def orderEffPrice (o : Order) (market_price : ℚ) : ℚ :=
  match o.price with
  | none => market_price
  | some p => if p = 0 then market_price else p

/-- `RiskManager.check_order(order, position, market_price)`, returning the
`(passed, reason)` tuple.  The checks run in source order: order value above
the maximum, order value below the minimum, price deviation (guarded by the
truthiness test `if order.price:`, so it is skipped for `None` *and* for a
zero price), then the position-value check when a position is given. -/
def checkOrder (rl : RiskLimit) (o : Order) (pos : Option Position)
    (market_price : ℚ) : Bool × String :=
  let order_value := o.quantity * orderEffPrice o market_price
  if rl.max_order_value < order_value then (false, "订单价值超过限制")
  else if order_value < rl.min_order_value then (false, "订单价值低于最小限制")
  else
    let posCheck : Bool × String :=
      match pos with
      | some ps =>
          let new_position_value :=
            position_value ps + (if o.side = OrderSide.buy then order_value else -order_value)
          if rl.max_position_value < new_position_value then (false, "持仓市值超过限制")
          else (true, "")
      | none => (true, "")
    match o.price with
    | some p =>
        if p ≠ 0 then
          if rl.price_deviation < |p - market_price| / market_price then
            (false, "价格偏离度过大")
          else posCheck
        else posCheck
    | none => posCheck

/-- `RiskManager.check_position(position)`. -/
def checkPosition (rl : RiskLimit) (p : Position) : Bool × String :=
  if rl.max_leverage < p.leverage then (false, "杠杆倍数超过限制")
  else if margin_ratio p < rl.min_margin_ratio then (false, "保证金率低于限制")
  else if rl.max_position_value < position_value p then (false, "持仓市值超过限制")
  else (true, "")

/-- The mutable daily-PnL state of `RiskManager`: `daily_pnl` and the
calendar date of `last_pnl_reset` (an integer day index). -/
structure RiskPnlState where
  daily_pnl : ℚ
  lastResetDay : ℤ
deriving DecidableEq, Repr

/-- `RiskManager.reset_daily_pnl`, with `nowDay` the calendar date of
`datetime.now()` at the call: reset the total and remember the date exactly
when the date is strictly later than the stored one. -/
def resetDailyPnl (rs : RiskPnlState) (nowDay : ℤ) : RiskPnlState :=
  if rs.lastResetDay < nowDay then ⟨0, nowDay⟩ else rs

/-- `RiskManager.update_pnl(pnl)`: reset if the day changed, add the delta,
then report failure iff `daily_pnl < -max_daily_loss`. -/
def updatePnl (max_daily_loss : ℚ) (rs : RiskPnlState) (pnl : ℚ)
    (nowDay : ℤ) : RiskPnlState × (Bool × String) :=
  let rs1 := resetDailyPnl rs nowDay
  let rs2 : RiskPnlState := ⟨rs1.daily_pnl + pnl, rs1.lastResetDay⟩
  if rs2.daily_pnl < -max_daily_loss then (rs2, (false, "达到每日最大亏损限制"))
  else (rs2, (true, ""))

/-- Calendar day index of a UTC clock reading given in minutes. -/
def utcDay (utcMinutes : ℤ) : ℤ := utcMinutes.fdiv 1440

/-- Calendar day index of the *local* clock (`datetime.now()`) for a process
whose timezone is `tzOffset` minutes away from UTC.  `risk.py` uses
`datetime.now()`, not `datetime.utcnow()`, for the daily reset. -/
def localDay (utcMinutes tzOffset : ℤ) : ℤ := (utcMinutes + tzOffset).fdiv 1440

/-- `update_pnl` as the code executes it at UTC time `utcMinutes` in a
process with timezone offset `tzOffset`: the reset keys on the **local**
calendar date, because `reset_daily_pnl` reads `datetime.now()`. -/
def updatePnlAt (max_daily_loss : ℚ) (rs : RiskPnlState) (pnl : ℚ)
    (utcMinutes tzOffset : ℤ) : RiskPnlState × (Bool × String) :=
  updatePnl max_daily_loss rs pnl (localDay utcMinutes tzOffset)

/-- Following the claim's words (refinement comparison only): `update_pnl`
with the daily reset keyed on the **UTC** calendar date. -/
def specUpdatePnlUTC (max_daily_loss : ℚ) (rs : RiskPnlState) (pnl : ℚ)
    (utcMinutes : ℤ) : RiskPnlState × (Bool × String) :=
  updatePnl max_daily_loss rs pnl (utcDay utcMinutes)

/-- Following the claim's words (refinement comparison only): the order's
notional value is "quantity times price, or quantity times market price for
a market order". -/
def claimOrderNotional (o : Order) (market_price : ℚ) : ℚ :=
  o.quantity * o.price.getD market_price

/-- Following the claim's words (refinement comparison only): `check_order`
rejects exactly when the notional is below the minimum or above the
maximum, a limit order's relative deviation exceeds the bound, or the
position's notional after applying the order exceeds the maximum. -/
def claimRejectsC1 (rl : RiskLimit) (o : Order) (pos : Option Position)
    (market_price : ℚ) : Prop :=
  claimOrderNotional o market_price < rl.min_order_value
  ∨ rl.max_order_value < claimOrderNotional o market_price
  ∨ (∃ p, o.price = some p ∧
      rl.price_deviation < |p - market_price| / market_price)
  ∨ (∃ ps, pos = some ps ∧
      rl.max_position_value < position_value ps +
        (if o.side = OrderSide.buy then claimOrderNotional o market_price
         else -claimOrderNotional o market_price))

/-! ### Strategy trading operations (`src/trading/core/strategy.py`) -/

/-- The per-strategy configuration read by `buy`/`sell`: the risk limits and
the commission rate. -/
structure StrategyCfg where
  riskLimit : RiskLimit
  commission_rate : ℚ
deriving DecidableEq, Repr

/-- The mutable trading state of `BaseStrategy`: `self.position`,
`self.total_pnl`, `self.total_commission` and the risk manager's daily-PnL
state. -/
structure StratState where
  position : Position
  total_pnl : ℚ
  total_commission : ℚ
  risk : RiskPnlState
deriving DecidableEq, Repr

/-- `_validate_trade_params(quantity, price)` as it runs in the concrete
strategy (`deepseek_strategy.py` overrides the base version to pass the
required `order_type` argument; `check_order` never reads it).  Checks
`quantity > 0`, then `price > 0` when a price is given, then builds the
order — side `BUY` iff `quantity > 0`, quantity `abs(quantity)` — and runs
`check_order` against the current position and market price. -/
def validateTradeParams (cfg : StrategyCfg) (st : StratState) (q : ℚ)
    (pOpt : Option ℚ) (market_price : ℚ) : Bool × String :=
  if q ≤ 0 then (false, "交易数量必须大于0")
  else
    let doCheck := checkOrder cfg.riskLimit
      { order_type := OrderType.market,
        side := if 0 < q then OrderSide.buy else OrderSide.sell,
        quantity := |q|, price := pOpt }
      (some st.position) market_price
    match pOpt with
    | some pr => if pr ≤ 0 then (false, "价格必须大于0") else doCheck
    | none => doCheck

/-- The execution price of a fill: the given price, or the market price when
`price is None`. -/
def fillPrice (pOpt : Option ℚ) (market_price : ℚ) : ℚ := pOpt.getD market_price

/-- `commission = abs(price * quantity * self.commission_rate)`. -/
def fillCommission (rate price q : ℚ) : ℚ := |price * q * rate|

/-- The realized PnL a buy books when covering a short:
`(avg_price - price) * min(abs(position), quantity)` when the position is
negative, `0` otherwise. -/
def buyClosingRealized (pos : Position) (price q : ℚ) : ℚ :=
  if pos.quantity < 0 then (pos.avg_price - price) * min |pos.quantity| q else 0

/-- The realized PnL a sell books when reducing a long:
`(price - avg_price) * min(position, quantity)` when the position is
positive, `0` otherwise. -/
def sellClosingRealized (pos : Position) (price q : ℚ) : ℚ :=
  if 0 < pos.quantity then (price - pos.avg_price) * min pos.quantity q else 0

/-- The fresh `Position` object `buy` constructs: quantity `old + q`,
average price `(old_avg * old + price * q) / (old + q)` (zero when the new
quantity is zero), leverage carried over, the other fields at their
dataclass defaults. -/
def buyNewPosition (pos : Position) (price q : ℚ) : Position :=
  { quantity := pos.quantity + q,
    avg_price :=
      if pos.quantity + q ≠ 0 then
        (pos.avg_price * pos.quantity + price * q) / (pos.quantity + q)
      else 0,
    realized_pnl := 0, margin := 0, leverage := pos.leverage }

/-- The fresh `Position` object `sell` constructs: quantity `old - q`,
average price `(old_avg * old - price * q) / (old - q)` (zero when the new
quantity is zero). -/
def sellNewPosition (pos : Position) (price q : ℚ) : Position :=
  { quantity := pos.quantity - q,
    avg_price :=
      if pos.quantity - q ≠ 0 then
        (pos.avg_price * pos.quantity - price * q) / (pos.quantity - q)
      else 0,
    realized_pnl := 0, margin := 0, leverage := pos.leverage }

/-- The rollback object built when `check_position` fails:
`Position(symbol, old_position, old_avg_price, leverage=...)`, i.e. the old
quantity and average price with dataclass defaults for the rest. -/
def rollbackPos (pos : Position) : Position :=
  { quantity := pos.quantity, avg_price := pos.avg_price,
    realized_pnl := 0, margin := 0, leverage := pos.leverage }

/-- `BaseStrategy.buy(quantity, price)` at local calendar date `nowDay`.

Returns the post-call state and `some message` when the call raises
`ValueError`.  Source order: validation (raises before any mutation),
commission added to `total_commission`, short-covering realized PnL added to
`total_pnl`, the new position installed, `check_position` (on failure the
position — and only the position — is rolled back), `update_pnl` (result
only logged), then trade record and state save (external writes, omitted
here).  `buyClosingRealized` is `0` unless the position is short, so adding
it unconditionally matches the code's guarded `total_pnl` update. -/
def strategyBuy (cfg : StrategyCfg) (st : StratState) (q : ℚ)
    (pOpt : Option ℚ) (market_price : ℚ) (nowDay : ℤ) :
    StratState × Option String :=
  let v := validateTradeParams cfg st q pOpt market_price
  if v.1 = false then (st, some v.2)
  else
    let price := fillPrice pOpt market_price
    let commission := fillCommission cfg.commission_rate price q
    let tc := st.total_commission + commission
    let realized := buyClosingRealized st.position price q
    let tp := st.total_pnl + realized
    let npos := buyNewPosition st.position price q
    let pc := checkPosition cfg.riskLimit npos
    if pc.1 = false then
      ({ st with position := rollbackPos st.position,
                 total_pnl := tp, total_commission := tc },
       some ("持仓未通过风险检查: " ++ pc.2))
    else
      let rr := updatePnl cfg.riskLimit.max_daily_loss st.risk realized nowDay
      ({ position := npos, total_pnl := tp, total_commission := tc,
         risk := rr.1 }, none)

/-- `BaseStrategy.sell(quantity, price)`, mirror image of `strategyBuy`:
realized PnL is booked when reducing a long, the new position subtracts the
quantity. -/
def strategySell (cfg : StrategyCfg) (st : StratState) (q : ℚ)
    (pOpt : Option ℚ) (market_price : ℚ) (nowDay : ℤ) :
    StratState × Option String :=
  let v := validateTradeParams cfg st q pOpt market_price
  if v.1 = false then (st, some v.2)
  else
    let price := fillPrice pOpt market_price
    let commission := fillCommission cfg.commission_rate price q
    let tc := st.total_commission + commission
    let realized := sellClosingRealized st.position price q
    let tp := st.total_pnl + realized
    let npos := sellNewPosition st.position price q
    let pc := checkPosition cfg.riskLimit npos
    if pc.1 = false then
      ({ st with position := rollbackPos st.position,
                 total_pnl := tp, total_commission := tc },
       some ("持仓未通过风险检查: " ++ pc.2))
    else
      let rr := updatePnl cfg.riskLimit.max_daily_loss st.risk realized nowDay
      ({ position := npos, total_pnl := tp, total_commission := tc,
         risk := rr.1 }, none)

/-- A strategy's trading state right after `__init__`: flat position with
leverage 1, zero totals, the given daily-PnL state. -/
def initialStratState (rs : RiskPnlState) : StratState :=
  { position := ⟨0, 0, 0, 0, 1⟩, total_pnl := 0, total_commission := 0, risk := rs }

/-! ### Strategy lifecycle (`src/trading/core/strategy.py`, state objects
and `BaseStrategy.start` / `stop` / `pause` / `handle_error`) -/

/-- `StrategyStatus` from `models.py`; here it also names which state
object (`RunningState`, `StoppedState`, ...) is installed. -/
inductive LifeStatus where
  | stopped
  | running
  | paused
  | error
deriving DecidableEq, Repr, BEq

/-- The lifecycle-relevant state of a `BaseStrategy`: the installed state
object and the `_is_running` flag. -/
structure LifeState where
  status : LifeStatus
  isRunningFlag : Bool
deriving DecidableEq, Repr, BEq

/-- `BaseStrategy.is_running`: `_is_running and isinstance(_state,
RunningState)`. -/
def isRunningB (ls : LifeState) : Bool :=
  ls.isRunningFlag &&
    (match ls.status with
     | LifeStatus.running => true
     | _ => false)

/-- The externally visible effects of a lifecycle call that the claims talk
about: a `_save_status` database write (new status plus optional error
text; the timestamp always accompanies it) and a `strategy_update`
publication on the event bus.  Task management and the `_on_start` /
`_on_stop` hooks produce neither a persist nor a publish and are omitted. -/
inductive LifeEffect where
  | persist (status : LifeStatus) (errText : Option String)
  | publish
deriving DecidableEq, Repr, BEq

/-- Result of a lifecycle call: post-state, effect trace in execution
order, and `some message` when the call raises. -/
structure LifeOutcome where
  state : LifeState
  effects : List LifeEffect
  raised : Option String
deriving DecidableEq, Repr

/-- `_save_status(status, error)`: commits `{status, error, timestamp}` and
then schedules exactly one `strategy_update` publication; also sets
`_is_running := (status == RUNNING)`. -/
def saveStatusEffects (status : LifeStatus) (errText : Option String) : List LifeEffect :=
  [LifeEffect.persist status errText, LifeEffect.publish]

/-- `BaseStrategy.start()`.  If `is_running`, the raise lands in the
`except` block, which clears `_is_running` and cancels the task.  The same
happens when the flag is down but the installed state object is
`RunningState` (its `start` raises).  Otherwise the stopped / paused /
error state object saves `RUNNING` and installs `RunningState`. -/
def lifeStart (ls : LifeState) : LifeOutcome :=
  if isRunningB ls then
    ⟨{ ls with isRunningFlag := false }, [], some "策略已经在运行中"⟩
  else
    match ls.status with
    | LifeStatus.running =>
        ⟨{ ls with isRunningFlag := false }, [], some "策略已经在运行中"⟩
    | _ =>
        ⟨⟨LifeStatus.running, true⟩, saveStatusEffects LifeStatus.running none, none⟩

/-- `BaseStrategy.stop()`.  When not running it raises, and the `except`
block installs `StoppedState` and saves `STOPPED` (one more persist and
publish).  When running, `RunningState.stop` saves `STOPPED` (persist +
publish) and then `stop()` itself schedules a second publication. -/
def lifeStop (ls : LifeState) : LifeOutcome :=
  if isRunningB ls then
    ⟨⟨LifeStatus.stopped, false⟩,
      saveStatusEffects LifeStatus.stopped none ++ [LifeEffect.publish], none⟩
  else
    ⟨⟨LifeStatus.stopped, false⟩, saveStatusEffects LifeStatus.stopped none,
      some "策略未在运行"⟩

/-- `BaseStrategy.pause()`.  When not running it raises (the `except` block
only logs); when running, `RunningState.pause` saves `PAUSED` and installs
`PausedState`. -/
def lifePause (ls : LifeState) : LifeOutcome :=
  if isRunningB ls then
    ⟨⟨LifeStatus.paused, false⟩, saveStatusEffects LifeStatus.paused none, none⟩
  else
    ⟨ls, [], some "无法暂停未运行的策略"⟩

/-- `BaseStrategy.handle_error(error)`: clears `_is_running`, saves `ERROR`
with the error text, installs `ErrorState`. -/
def lifeHandleError (_ls : LifeState) (errText : String) : LifeOutcome :=
  ⟨⟨LifeStatus.error, false⟩, saveStatusEffects LifeStatus.error (some errText), none⟩

/-- The strategy's state right after a clean `__init__`. -/
def stoppedLS : LifeState := ⟨LifeStatus.stopped, false⟩

/-- The state of a normally running strategy. -/
def runningLS : LifeState := ⟨LifeStatus.running, true⟩

/-- The state after `handle_error`. -/
def errorLS : LifeState := ⟨LifeStatus.error, false⟩

/-! ### WebSocket subscription bookkeeping
(`src/trading/clients/okx/ws_manager.py`) -/

/-- One entry of `OKXWebSocketManager._subscriptions`: the stored channel
and argument dict (timestamps omitted). -/
structure WSSub where
  channel : String
  args : List (String × String)
deriving DecidableEq, Repr

/-- Insert one parameter into a key-sorted parameter list. -/
def insertArg (p : String × String) : List (String × String) → List (String × String)
  | [] => [p]
  | q :: rest =>
      if compare p.1 q.1 = Ordering.gt then q :: insertArg p rest else p :: q :: rest

/-- Sort a parameter list by key — the effect of
`json.dumps(args, sort_keys=True)` on the dict's items. -/
def sortArgs (l : List (String × String)) : List (String × String) :=
  l.foldr insertArg []

/-- The canonical subscription key `f"{channel}:{json.dumps(args,
sort_keys=True)}"`: the channel together with the key-sorted parameters. -/
def canonKey (channel : String) (args : List (String × String)) :
    String × List (String × String) :=
  (channel, sortArgs args)

/-- The subscription-relevant state of `OKXWebSocketManager`:
`is_connected` and the `_subscriptions` dict as an association list from
canonical key to stored entry. -/
structure WSState where
  connected : Bool
  subscriptions : List ((String × List (String × String)) × WSSub)
deriving DecidableEq, Repr

/-- `OKXWebSocketManager.subscribe(channel, args)`: raises when not
connected, otherwise sends the subscribe request.  It never writes to
`_subscriptions` — the local state is returned unchanged in both cases. -/
def wsSubscribe (s : WSState) (_channel : String)
    (_args : List (String × String)) : WSState × Option String :=
  if s.connected then (s, none) else (s, some "WebSocket未连接")

/-- `OKXWebSocketManager.unsubscribe(channel, args)`: drop the canonical
key from `_subscriptions` when present (and send the unsubscribe request
when connected — a network effect with no further local state). -/
def wsUnsubscribe (s : WSState) (channel : String)
    (args : List (String × String)) : WSState :=
  { s with subscriptions :=
      s.subscriptions.filter (fun kv => ¬ (kv.1 = canonKey channel args)) }

/-- `OKXWebSocketManager._resubscribe()`: the entries replayed to the venue
after a (re)connect — one `subscribe` per stored `_subscriptions` value. -/
def wsResubscribeList (s : WSState) : List WSSub :=
  s.subscriptions.map (fun kv => kv.2)

/-- A subscribe or unsubscribe call, for describing call sequences. -/
inductive SubOp where
  | sub (channel : String) (args : List (String × String))
  | unsub (channel : String) (args : List (String × String))
deriving DecidableEq, Repr

/-- Run a sequence of subscribe/unsubscribe calls against the manager
(connected throughout). -/
def wsRunOps (s : WSState) : List SubOp → WSState
  | [] => s
  | SubOp.sub ch args :: rest => wsRunOps (wsSubscribe s ch args).1 rest
  | SubOp.unsub ch args :: rest => wsRunOps (wsUnsubscribe s ch args) rest

/-- Modelled from the spec (refinement comparison only; the recording that
`subscribe` was meant to do is missing from the code): "the active set is
retained in memory", keyed by canonical key, subscribe inserting
idempotently and unsubscribe removing. -/
def specActiveKeys (ops : List SubOp) : List (String × List (String × String)) :=
  ops.foldl
    (fun acc op =>
      match op with
      | SubOp.sub ch args =>
          let k := canonKey ch args
          if k ∈ acc then acc else acc ++ [k]
      | SubOp.unsub ch args => acc.filter (fun k => ¬ (k = canonKey ch args)))
    []

/-! ### Broadcast fan-out (`src/api/websocket.py`) -/

/-- `ConnectionManager._process_broadcast_batch(batch, symbol)`, restricted
to the delivery decision: every connection of the topic that is not in
`closed_connections` is sent `batch[-1][0]`, the most recently queued
message of the batch; all earlier messages of the batch are dropped.
Connections are identified by naturals. -/
def processBroadcastBatch (batch : List String) (conns closed : List ℕ) :
    List (ℕ × String) :=
  match batch.getLast? with
  | none => []
  | some latest =>
      (conns.filter (fun c => ! closed.contains c)).map (fun c => (c, latest))

/-- Deliveries over a run of the broadcast worker in which the queued
messages arrived as the given batches (one inner list per batch window). -/
def fanoutDeliveries (batches : List (List String)) (conns closed : List ℕ) :
    List (ℕ × String) :=
  (batches.map (fun b => processBroadcastBatch b conns closed)).flatten

/-! ## Theorems -/

/-- **C5** — From `Stopped`, `start()` succeeds and the status becomes
`Running`; `start()` while `Running` raises the already-running error;
`stop()` while `Stopped` raises the not-running error; `pause()` while
`Stopped` or while in `Error` raises the cannot-pause error.  In each
misuse case a named error reaches the caller. -/
theorem C5_lifecycle_guards :
    (lifeStart stoppedLS).state.status = LifeStatus.running
    ∧ (lifeStart stoppedLS).raised = none
    ∧ (lifeStart runningLS).raised = some "策略已经在运行中"
    ∧ (lifeStop stoppedLS).raised = some "策略未在运行"
    ∧ (lifeStop stoppedLS).state.status = LifeStatus.stopped
    ∧ (lifePause stoppedLS).raised = some "无法暂停未运行的策略"
    ∧ (lifePause stoppedLS).state = stoppedLS
    ∧ (lifePause errorLS).raised = some "无法暂停未运行的策略"
    ∧ (lifePause errorLS).state = errorLS := by
  decide

/-- **C6, counterexample** — The claim says every transition publishes
exactly one state-change event.  A successful `stop()` from the running
state publishes twice: once from `_save_status` inside `RunningState.stop`
and once more from `BaseStrategy.stop` itself. -/
theorem C6_counterexample :
    (lifeStop runningLS).raised = none
    ∧ ((lifeStop runningLS).effects.count LifeEffect.publish = 2)
    ∧ (2 : ℕ) ≠ 1 := by
  decide

/-- **C6, amended** — Every transition persists the new status (with
optional error text) before any publication; `start`, `pause` and
`handle_error` then publish exactly one state-change event, while a
successful `stop` publishes two. -/
theorem C6_transition_effects :
    (∀ ls : LifeState, ls.status ≠ LifeStatus.running →
      (lifeStart ls).effects =
        [LifeEffect.persist LifeStatus.running none, LifeEffect.publish])
    ∧ (∀ ls : LifeState, isRunningB ls = true →
      (lifePause ls).effects =
        [LifeEffect.persist LifeStatus.paused none, LifeEffect.publish])
    ∧ (∀ (ls : LifeState) (e : String),
      (lifeHandleError ls e).effects =
        [LifeEffect.persist LifeStatus.error (some e), LifeEffect.publish])
    ∧ (∀ ls : LifeState, isRunningB ls = true →
      (lifeStop ls).effects =
        [LifeEffect.persist LifeStatus.stopped none, LifeEffect.publish,
         LifeEffect.publish]) := by
  refine ⟨?_, ?_, ?_, ?_⟩
  · intro ls h
    cases hs : ls.status <;>
      simp_all [lifeStart, isRunningB, saveStatusEffects, hs]
  · intro ls h
    simp [lifePause, h, saveStatusEffects]
  · intro ls e
    simp [lifeHandleError, saveStatusEffects]
  · intro ls h
    simp [lifeStop, h, saveStatusEffects]

/-- **C6, witness** for `C6_transition_effects` at concrete states. -/
theorem C6_transition_effects_witness :
    (lifeStart stoppedLS).effects =
      [LifeEffect.persist LifeStatus.running none, LifeEffect.publish]
    ∧ (lifePause runningLS).effects =
      [LifeEffect.persist LifeStatus.paused none, LifeEffect.publish]
    ∧ (lifeHandleError runningLS "boom").effects =
      [LifeEffect.persist LifeStatus.error (some "boom"), LifeEffect.publish]
    ∧ (lifeStop runningLS).effects =
      [LifeEffect.persist LifeStatus.stopped none, LifeEffect.publish,
       LifeEffect.publish] :=
  ⟨C6_transition_effects.1 stoppedLS (by decide),
   C6_transition_effects.2.1 runningLS (by decide),
   C6_transition_effects.2.2.1 runningLS "boom",
   C6_transition_effects.2.2.2 runningLS (by decide)⟩

/-- **C7** — `subscribe` never records anything in `_subscriptions` (only
`unsubscribe`, `_resubscribe` and `get_subscription_info` read it), so
after a disconnect/reconnect `_resubscribe` replays the empty set instead
of the pre-disconnect active set: after one `subscribe` on a fresh
connected manager the replay list is `[]`, while the spec's retained
active set holds the canonical key. -/
theorem C7_subscribe_not_recorded :
    (∀ (s : WSState) (ch : String) (args : List (String × String)),
      (wsSubscribe s ch args).1 = s)
    ∧ wsResubscribeList
        (wsRunOps ⟨true, []⟩ [SubOp.sub "tickers" [("instId", "BTC-USDT")]]) = []
    ∧ specActiveKeys [SubOp.sub "tickers" [("instId", "BTC-USDT")]] =
        [("tickers", [("instId", "BTC-USDT")])]
    ∧ ([("tickers", [("instId", "BTC-USDT")])] :
        List (String × List (String × String))) ≠ [] := by
  refine ⟨?_, ?_, ?_, ?_⟩
  · intro s ch args
    unfold wsSubscribe
    split <;> rfl
  · rfl
  · rfl
  · simp

/-- **C9, counterexample** — The daily reset keys on `datetime.now()`, the
*local* calendar date, not the UTC one.  In a UTC−5 process (offset −300
minutes) with the last reset stored at UTC minute 1439 (23:59 UTC of day
0, which is also local day 0) and 5 accumulated, a check at UTC minute
1441 — the first check after the UTC day changed — does **not** reset:
the code yields a total of 6, while the claim's UTC-keyed reset yields
1. -/
theorem C9_counterexample :
    (updatePnlAt 1000 ⟨5, 0⟩ 1 1441 (-300)).1.daily_pnl = 6
    ∧ utcDay 1441 = 1
    ∧ (specUpdatePnlUTC 1000 ⟨5, 0⟩ 1 1441).1.daily_pnl = 1
    ∧ (6 : ℚ) ≠ 1 := by
  refine ⟨?_, ?_, ?_, by norm_num⟩
  · norm_num [updatePnlAt, updatePnl, resetDailyPnl, localDay, Int.fdiv]
  · norm_num [utcDay, Int.fdiv]
  · norm_num [specUpdatePnlUTC, updatePnl, resetDailyPnl, utcDay, Int.fdiv]

/-- **C9, amended** — `update_pnl` adds the delta to the running daily
total; the total is reset at the first check after the **process-local**
calendar day changes (the code reads `datetime.now()`, not UTC); the call
reports failure exactly when the accumulated daily loss exceeds
`max_daily_loss`; the delta is recorded even on failure, and a later call
still accumulates on top — the check reports only. -/
theorem C9_update_pnl_amended :
    ∀ (M : ℚ) (rs : RiskPnlState) (pnl pnl2 : ℚ) (t tz : ℤ),
      (updatePnlAt M rs pnl t tz).1.daily_pnl =
        (if rs.lastResetDay < localDay t tz then 0 else rs.daily_pnl) + pnl
      ∧ (updatePnlAt M rs pnl t tz).1.lastResetDay =
        (if rs.lastResetDay < localDay t tz then localDay t tz else rs.lastResetDay)
      ∧ ((updatePnlAt M rs pnl t tz).2.1 = false ↔
          (updatePnlAt M rs pnl t tz).1.daily_pnl < -M)
      ∧ (updatePnlAt M (updatePnlAt M rs pnl t tz).1 pnl2 t tz).1.daily_pnl =
          (updatePnlAt M rs pnl t tz).1.daily_pnl + pnl2 := by
  intro M rs pnl pnl2 t tz
  have key : ∀ (rs' : RiskPnlState) (p : ℚ) (nd : ℤ),
      (updatePnl M rs' p nd).1.daily_pnl =
        (if rs'.lastResetDay < nd then 0 else rs'.daily_pnl) + p
      ∧ (updatePnl M rs' p nd).1.lastResetDay =
        (if rs'.lastResetDay < nd then nd else rs'.lastResetDay)
      ∧ ((updatePnl M rs' p nd).2.1 = false ↔
          (updatePnl M rs' p nd).1.daily_pnl < -M) := by
    intro rs' p nd
    simp only [updatePnl, resetDailyPnl]
    split_ifs <;> simp_all
  obtain ⟨h1, h2, h3⟩ := key rs pnl (localDay t tz)
  have hno : ¬ ((updatePnl M rs pnl (localDay t tz)).1.lastResetDay < localDay t tz) := by
    rw [h2]
    split_ifs with hc
    · exact lt_irrefl _
    · exact hc
  obtain ⟨g1, _, _⟩ := key (updatePnl M rs pnl (localDay t tz)).1 pnl2 (localDay t tz)
  simp only [updatePnlAt]
  exact ⟨h1, h2, h3, by rw [g1, if_neg hno]⟩

/-- **C10** — A sell through `Position.update_position` with
`filled_quantity` strictly greater than the held quantity raises
`ValueError` and leaves the position unchanged; and any call with a
nonnegative fill on a nonnegative position leaves the quantity
nonnegative, so `update_position` never produces a short position. -/
theorem C10_oversell_guard :
    (∀ (pos : Position) (fq fp : ℚ), pos.quantity < fq →
      updatePosition pos fq fp false = (pos, some "卖出数量大于持仓数量"))
    ∧ (∀ (pos : Position) (fq fp : ℚ) (b : Bool),
      0 ≤ pos.quantity → 0 ≤ fq →
      0 ≤ (updatePosition pos fq fp b).1.quantity) := by
  constructor
  · intro pos fq fp h
    simp [updatePosition, h]
  · intro pos fq fp b hq hf
    cases b
    · simp only [updatePosition]
      split_ifs <;> simp_all
    · simp only [updatePosition]
      split_ifs <;> simp_all
      linarith

/-- Shared helper: the head of a rejection chain
`if c then (false, reason) else rest` reports `false` exactly when `c`
holds or the tail reports `false`. -/
theorem reject_chain (c : Prop) [Decidable c] (s : String) (rest : Bool × String) :
    ((if c then ((false : Bool), s) else rest).1 = false) ↔ (c ∨ rest.1 = false) := by
  split_ifs with h <;> simp [h]

/-- **C1, counterexample** — A limit order with price `0` is valued and
deviation-checked with the *market* price because of Python truthiness
(`order.price or market_price`; `if order.price:`): with
`min_order_value = 100`, a zero-price limit order for quantity 5 at market
price 100 is **accepted** by the code (effective notional 500), while the
claim's reading (notional `5 × 0 = 0 < 100`, deviation `1 > 1/20`) demands
rejection. -/
theorem C1_counterexample :
    checkOrder ⟨1000000, 10, 0, 1000000, 10000, 100, 1/20, 0, 0, 0⟩
      ⟨OrderType.limit, OrderSide.buy, 5, some 0⟩ none 100 = (true, "")
    ∧ claimRejectsC1 ⟨1000000, 10, 0, 1000000, 10000, 100, 1/20, 0, 0, 0⟩
      ⟨OrderType.limit, OrderSide.buy, 5, some 0⟩ none 100 := by
  constructor
  · norm_num [checkOrder, orderEffPrice]
  · exact Or.inl (by norm_num [claimOrderNotional])

/-- **C1, amended** — For positive market price, `check_order` rejects
exactly when the effective notional (quantity times order price, with a
`None` **or zero** price replaced by the market price) is below
`min_order_value` or above `max_order_value`, when a limit order with
**nonzero** price deviates relatively by more than `price_deviation`, or
when a given position's notional value after applying the order exceeds
`max_position_value`; and with `min_order_value = 100`,
`max_order_value = 10000` an order valued 50 is rejected as below the
minimum, one valued 15000 as exceeding the maximum, and one valued 500 is
accepted. -/
theorem C1_check_order :
    (∀ (rl : RiskLimit) (o : Order) (pos : Option Position) (mp : ℚ),
      0 < mp →
      ((checkOrder rl o pos mp).1 = false ↔
        (o.quantity * orderEffPrice o mp < rl.min_order_value
         ∨ rl.max_order_value < o.quantity * orderEffPrice o mp
         ∨ (∃ p, o.price = some p ∧ p ≠ 0 ∧
             rl.price_deviation < |p - mp| / mp)
         ∨ (∃ ps, pos = some ps ∧
             rl.max_position_value < position_value ps +
               (if o.side = OrderSide.buy then o.quantity * orderEffPrice o mp
                else -(o.quantity * orderEffPrice o mp))))))
    ∧ checkOrder ⟨1000000, 10, 0, 1000000, 10000, 100, 10, 0, 0, 0⟩
        ⟨OrderType.market, OrderSide.buy, 50, none⟩ none 1 =
        (false, "订单价值低于最小限制")
    ∧ checkOrder ⟨1000000, 10, 0, 1000000, 10000, 100, 10, 0, 0, 0⟩
        ⟨OrderType.market, OrderSide.buy, 15000, none⟩ none 1 =
        (false, "订单价值超过限制")
    ∧ checkOrder ⟨1000000, 10, 0, 1000000, 10000, 100, 10, 0, 0, 0⟩
        ⟨OrderType.market, OrderSide.buy, 500, none⟩ none 1 = (true, "") := by
  refine ⟨?_, ?_, ?_, ?_⟩
  · intro rl o pos mp hmp
    rcases hp : o.price with _ | p
    · rcases pos with _ | ps <;>
        · simp [checkOrder, hp, reject_chain]
          tauto
    · by_cases hp0 : p = 0 <;> rcases pos with _ | ps <;>
        · simp [checkOrder, hp, hp0, reject_chain]
          tauto
  · norm_num [checkOrder, orderEffPrice]
  · norm_num [checkOrder, orderEffPrice]
  · norm_num [checkOrder, orderEffPrice]

/-- **C1, witness** for `C1_check_order` at a concrete rejected order. -/
theorem C1_check_order_witness :
    (checkOrder ⟨1000000, 10, 0, 1000000, 10000, 100, 10, 0, 0, 0⟩
      ⟨OrderType.market, OrderSide.sell, 50, none⟩ none 1).1 = false :=
  (C1_check_order.1 ⟨1000000, 10, 0, 1000000, 10000, 100, 10, 0, 0, 0⟩
      ⟨OrderType.market, OrderSide.sell, 50, none⟩ none 1 (by norm_num)).mpr
    (Or.inl (by norm_num [orderEffPrice]))

/-- **C2, counterexample** — A partial reducing sell through
`Position.update_position` keeps the old average price: selling 1 of 2 held
at average 10 for price 20 leaves the average at 10, while the claimed
notional-weighted formula `(10·2 + 20·(−1)) / (2 − 1)` gives 0. -/
theorem C2_counterexample :
    updatePosition ⟨2, 10, 0, 0, 1⟩ 1 20 false = (⟨1, 10, 10, 0, 1⟩, none)
    ∧ (10 * 2 + 20 * (-1) : ℚ) / (2 - 1) = 0
    ∧ (10 : ℚ) ≠ 0 := by
  refine ⟨?_, by norm_num, by norm_num⟩
  norm_num [updatePosition]

/-- **C2, amended** — Fills applied through `BaseStrategy.buy` / `sell`
always give the new position the notional-weighted average price
`(avg·old + price·signed_qty) / new_qty`, resetting to 0 when the new
quantity is 0 (that is the defining formula of `buyNewPosition` /
`sellNewPosition`).  `Position.update_position` satisfies the formula for
buy fills and resets the average on a complete close, but a **partial**
sell leaves the average price unchanged instead of applying the formula. -/
theorem C2_avg_price :
    (∀ (pos : Position) (fq fp : ℚ), 0 < fq → 0 ≤ pos.quantity →
      updatePosition pos fq fp true =
        ({ pos with
            quantity := pos.quantity + fq,
            avg_price := (pos.avg_price * pos.quantity + fp * fq) /
              (pos.quantity + fq) }, none))
    ∧ (∀ (pos : Position) (fq fp : ℚ), 0 < fq → fq = pos.quantity →
      updatePosition pos fq fp false =
        ({ pos with
            quantity := 0,
            avg_price := 0,
            realized_pnl := pos.realized_pnl + (fp - pos.avg_price) * fq }, none))
    ∧ (∀ (pos : Position) (fq fp : ℚ), 0 < fq → fq < pos.quantity →
      (updatePosition pos fq fp false).2 = none
      ∧ (updatePosition pos fq fp false).1.avg_price = pos.avg_price)
    ∧ (∀ (cfg : StrategyCfg) (st : StratState) (q : ℚ) (pOpt : Option ℚ)
        (mp : ℚ) (d : ℤ) (s' : StratState),
        strategyBuy cfg st q pOpt mp d = (s', none) →
        s'.position = buyNewPosition st.position (fillPrice pOpt mp) q)
    ∧ (∀ (cfg : StrategyCfg) (st : StratState) (q : ℚ) (pOpt : Option ℚ)
        (mp : ℚ) (d : ℤ) (s' : StratState),
        strategySell cfg st q pOpt mp d = (s', none) →
        s'.position = sellNewPosition st.position (fillPrice pOpt mp) q) := by
  refine ⟨?_, ?_, ?_, ?_, ?_⟩
  · intro pos fq fp h0 hq
    have hfq : fq ≠ 0 := ne_of_gt h0
    simp only [updatePosition]
    split_ifs with h1 h2
    · simp [h1, mul_div_cancel_right₀, hfq]
    · exact absurd h2 (ne_of_gt (by linarith))
    · simp [mul_comm]
  · intro pos fq fp h0 heq
    simp only [updatePosition]
    rw [if_neg (by rw [heq]; exact lt_irrefl _)]
    simp [heq]
  · intro pos fq fp h0 hlt
    have hne : pos.quantity - fq ≠ 0 := sub_ne_zero.mpr (ne_of_gt hlt)
    simp only [updatePosition]
    rw [if_neg (not_lt_of_gt hlt)]
    exact ⟨rfl, by simp [hne]⟩
  · intro cfg st q pOpt mp d s' h
    simp only [strategyBuy] at h
    split_ifs at h
    · simp at h
    · simp at h
    · injection h with h1 h2
      subst h1
      rfl
  · intro cfg st q pOpt mp d s' h
    simp only [strategySell] at h
    split_ifs at h
    · simp at h
    · simp at h
    · injection h with h1 h2
      subst h1
      rfl

/-- **C2, witness** for `C2_avg_price` at concrete fills. -/
theorem C2_avg_price_witness :
    updatePosition ⟨2, 10, 0, 0, 1⟩ 2 20 true = (⟨4, 15, 0, 0, 1⟩, none)
    ∧ updatePosition ⟨2, 10, 0, 0, 1⟩ 2 20 false = (⟨0, 0, 20, 0, 1⟩, none)
    ∧ (updatePosition ⟨2, 10, 0, 0, 1⟩ 1 20 false).1.avg_price = 10 := by
  refine ⟨?_, ?_, ?_⟩
  · have h := C2_avg_price.1 ⟨2, 10, 0, 0, 1⟩ 2 20 (by norm_num) (by norm_num)
    rw [h]; norm_num
  · have h := C2_avg_price.2.1 ⟨2, 10, 0, 0, 1⟩ 2 20 (by norm_num) rfl
    rw [h]; norm_num
  · exact (C2_avg_price.2.2.1 ⟨2, 10, 0, 0, 1⟩ 1 20 (by norm_num) (by norm_num)).2

/-- Shared helper: a non-closed connection receives one copy of the batch
message per occurrence in the topic's connection list. -/
theorem deliveries_replicate (closed : List ℕ) (c : ℕ) (m : String)
    (hcl : closed.contains c = false) :
    ∀ l : List ℕ,
      ((l.filter (fun x => ! closed.contains x)).map (fun x => (x, m))).filter
        (fun d => d.1 == c) = List.replicate (l.count c) (c, m) := by
  intro l
  have hmem : c ∉ closed := by simpa using hcl
  induction l with
  | nil => rfl
  | cons a t ih =>
      by_cases hac : a = c
      · subst hac
        simp_all [List.filter_cons, List.count_cons, List.replicate_succ]
      · by_cases hacl : a ∈ closed
        · simp_all [List.filter_cons, List.count_cons]
        · simp_all [List.filter_cons, List.count_cons]

/-- **C8** — Per non-empty batch, the broadcast worker delivers to every
current (non-closed) subscriber exactly one message: the most recently
queued message of the batch; and over a run, 5 messages queued within one
batch window produce 1 delivery per subscriber (the 5th message), while 2
messages in separate windows produce 2 deliveries. -/
theorem C8_latest_wins :
    (∀ (batch : List String) (conns closed : List ℕ) (c : ℕ) (m : String),
      batch.getLast? = some m → conns.count c = 1 → ¬ (c ∈ closed) →
      (processBroadcastBatch batch conns closed).filter (fun d => d.1 == c) =
        [(c, m)])
    ∧ fanoutDeliveries [["m1", "m2", "m3", "m4", "m5"]] [0] [] = [(0, "m5")]
    ∧ fanoutDeliveries [["m1"], ["m2"]] [0] [] = [(0, "m1"), (0, "m2")] := by
  refine ⟨?_, rfl, rfl⟩
  intro batch conns closed c m hlast hcount hcl
  have hb : closed.contains c = false := by
    simpa using hcl
  simp only [processBroadcastBatch, hlast]
  rw [deliveries_replicate closed c m hb conns, hcount, List.replicate_one]

/-- **C8, witness** for `C8_latest_wins` at a concrete two-message batch. -/
theorem C8_latest_wins_witness :
    (processBroadcastBatch ["a", "b"] [7] []).filter (fun d => d.1 == 7) =
      [(7, "b")] :=
  C8_latest_wins.1 ["a", "b"] [7] [] 7 "b" rfl (by decide) (by decide)

/-- Shared helper: when `_validate_trade_params` does not refuse, the
requested quantity was positive. -/
theorem validate_quantity_pos (cfg : StrategyCfg) (st : StratState) (q : ℚ)
    (pOpt : Option ℚ) (mp : ℚ)
    (h : ¬ ((validateTradeParams cfg st q pOpt mp).1 = false)) : 0 < q := by
  by_contra hq
  push_neg at hq
  exact h (by simp [validateTradeParams, hq])

/-- Shared helper: a pair whose second component is known is the pair of its
first component with that value. -/
theorem pair_eta {α β : Type} (x : α × β) (b : β) (h : x.2 = b) :
    x = (x.1, b) := by
  cases x
  cases h
  rfl

/-- **C3** — Opening from flat with a fill of `q > 0` at price `p` and then
closing completely at the same price yields realized PnL exactly 0 and an
average price reset to 0: through the `Position` ledger, and through
`BaseStrategy.buy` then `sell` with zero commission rate whenever both
calls pass the risk checks. -/
theorem C3_round_trip :
    (∀ (q p : ℚ), 0 < q →
      updatePosition ⟨0, 0, 0, 0, 1⟩ q p true = (⟨q, p, 0, 0, 1⟩, none)
      ∧ updatePosition ⟨q, p, 0, 0, 1⟩ q p false = (⟨0, 0, 0, 0, 1⟩, none))
    ∧ (∀ (rl : RiskLimit) (rs : RiskPnlState) (q p : ℚ) (d : ℤ)
        (s1 s2 : StratState),
        strategyBuy ⟨rl, 0⟩ (initialStratState rs) q (some p) p d = (s1, none) →
        strategySell ⟨rl, 0⟩ s1 q (some p) p d = (s2, none) →
        s2.total_pnl = 0 ∧ s2.position.avg_price = 0
          ∧ s2.position.quantity = 0) := by
  constructor
  · intro q p hq
    constructor
    · simp [updatePosition]
    · simp [updatePosition, lt_irrefl]
  · intro rl rs q p d s1 s2 h1 h2
    simp only [strategyBuy] at h1
    split_ifs at h1 with hv1 hpc1
    · simp at h1
    · simp at h1
    · have hq : 0 < q := validate_quantity_pos _ _ _ _ _ hv1
      injection h1 with h1a h1b
      subst h1a
      simp only [strategySell] at h2
      split_ifs at h2 with hv2 hpc2
      · simp at h2
      · simp at h2
      · injection h2 with h2a h2b
        subst h2a
        simp [buyNewPosition, sellNewPosition, buyClosingRealized,
          sellClosingRealized, fillPrice, initialStratState, hq, hq.ne',
          mul_div_cancel_right₀, sub_self]

/-- **C3, witness** for `C3_round_trip`: a 2-unit round trip at price 100
under permissive limits. -/
theorem C3_round_trip_witness :
    updatePosition ⟨0, 0, 0, 0, 1⟩ 2 100 true = (⟨2, 100, 0, 0, 1⟩, none)
    ∧ ((strategySell ⟨⟨1000000, 10, 0, 1000000, 1000000, 0, 1, 0, 0, 0⟩, 0⟩
        (strategyBuy ⟨⟨1000000, 10, 0, 1000000, 1000000, 0, 1, 0, 0, 0⟩, 0⟩
          (initialStratState ⟨0, 0⟩) 2 (some 100) 100 0).1
        2 (some 100) 100 0).1.total_pnl = 0) := by
  have hbuy :
      strategyBuy ⟨⟨1000000, 10, 0, 1000000, 1000000, 0, 1, 0, 0, 0⟩, 0⟩
        (initialStratState ⟨0, 0⟩) 2 (some 100) 100 0 =
      ((strategyBuy ⟨⟨1000000, 10, 0, 1000000, 1000000, 0, 1, 0, 0, 0⟩, 0⟩
        (initialStratState ⟨0, 0⟩) 2 (some 100) 100 0).1, none) :=
    pair_eta _ none (by
      norm_num [strategyBuy, validateTradeParams, checkOrder, orderEffPrice,
        position_value, margin_ratio, checkPosition, buyNewPosition,
        buyClosingRealized, fillPrice, fillCommission, initialStratState,
        updatePnl, resetDailyPnl])
  have hsell :
      strategySell ⟨⟨1000000, 10, 0, 1000000, 1000000, 0, 1, 0, 0, 0⟩, 0⟩
        (strategyBuy ⟨⟨1000000, 10, 0, 1000000, 1000000, 0, 1, 0, 0, 0⟩, 0⟩
          (initialStratState ⟨0, 0⟩) 2 (some 100) 100 0).1
        2 (some 100) 100 0 =
      ((strategySell ⟨⟨1000000, 10, 0, 1000000, 1000000, 0, 1, 0, 0, 0⟩, 0⟩
        (strategyBuy ⟨⟨1000000, 10, 0, 1000000, 1000000, 0, 1, 0, 0, 0⟩, 0⟩
          (initialStratState ⟨0, 0⟩) 2 (some 100) 100 0).1
        2 (some 100) 100 0).1, none) :=
    pair_eta _ none (by
      norm_num [strategyBuy, strategySell, validateTradeParams, checkOrder,
        orderEffPrice, position_value, margin_ratio, checkPosition,
        buyNewPosition, sellNewPosition, buyClosingRealized,
        sellClosingRealized, fillPrice, fillCommission, initialStratState,
        updatePnl, resetDailyPnl])
  exact ⟨(C3_round_trip.1 2 100 (by norm_num)).1,
    (C3_round_trip.2 ⟨1000000, 10, 0, 1000000, 1000000, 0, 1, 0, 0, 0⟩ ⟨0, 0⟩
      2 100 0 _ _ hbuy hsell).1⟩

/-- **C4, counterexample** — A buy refused by `check_position` (margin
ratio 0 below the configured minimum 1/10) still mutates state: the
commission for the attempted fill stays added to `total_commission`
(`1/2 ≠ 0`), even though the position itself is rolled back. -/
theorem C4_counterexample :
    (strategyBuy ⟨⟨1000000, 10, 1/10, 1000000, 10000, 100, 1, 0, 0, 0⟩, 1/1000⟩
        (initialStratState ⟨0, 0⟩) 1 (some 500) 500 0).2 =
      some "持仓未通过风险检查: 保证金率低于限制"
    ∧ (strategyBuy ⟨⟨1000000, 10, 1/10, 1000000, 10000, 100, 1, 0, 0, 0⟩, 1/1000⟩
        (initialStratState ⟨0, 0⟩) 1 (some 500) 500 0).1.total_commission = 1/2
    ∧ (initialStratState ⟨0, 0⟩).total_commission = 0
    ∧ ((1 : ℚ)/2 ≠ 0) := by
  refine ⟨?_, ?_, rfl, by norm_num⟩
  · norm_num [strategyBuy, validateTradeParams, checkOrder, orderEffPrice,
      position_value, margin_ratio, checkPosition, buyNewPosition,
      buyClosingRealized, fillPrice, fillCommission, rollbackPos,
      initialStratState, updatePnl, resetDailyPnl]
    rfl
  · norm_num [strategyBuy, validateTradeParams, checkOrder, orderEffPrice,
      position_value, margin_ratio, checkPosition, buyNewPosition,
      buyClosingRealized, fillPrice, fillCommission, rollbackPos,
      initialStratState, updatePnl, resetDailyPnl]

/-- **C4, amended** — A buy or sell refused by `check_order` (through
`_validate_trade_params`) mutates nothing: the entire state is returned
unchanged.  A buy or sell refused by `check_position` rolls back the
position (quantity and average price unchanged) and leaves the risk
manager's daily PnL untouched, but the fill's commission remains added to
`total_commission` and the closing portion's realized PnL remains added to
`total_pnl`. -/
theorem C4_risk_refusal :
    ∀ (cfg : StrategyCfg) (st : StratState) (q : ℚ) (pOpt : Option ℚ)
      (mp : ℚ) (d : ℤ),
      ((validateTradeParams cfg st q pOpt mp).1 = false →
        strategyBuy cfg st q pOpt mp d =
          (st, some (validateTradeParams cfg st q pOpt mp).2)
        ∧ strategySell cfg st q pOpt mp d =
          (st, some (validateTradeParams cfg st q pOpt mp).2))
      ∧ ((validateTradeParams cfg st q pOpt mp).1 = true →
        ((checkPosition cfg.riskLimit
            (buyNewPosition st.position (fillPrice pOpt mp) q)).1 = false →
          (strategyBuy cfg st q pOpt mp d).2 =
            some ("持仓未通过风险检查: " ++ (checkPosition cfg.riskLimit
              (buyNewPosition st.position (fillPrice pOpt mp) q)).2)
          ∧ (strategyBuy cfg st q pOpt mp d).1.position.quantity =
              st.position.quantity
          ∧ (strategyBuy cfg st q pOpt mp d).1.position.avg_price =
              st.position.avg_price
          ∧ (strategyBuy cfg st q pOpt mp d).1.risk = st.risk
          ∧ (strategyBuy cfg st q pOpt mp d).1.total_commission =
              st.total_commission +
                fillCommission cfg.commission_rate (fillPrice pOpt mp) q
          ∧ (strategyBuy cfg st q pOpt mp d).1.total_pnl =
              st.total_pnl + buyClosingRealized st.position (fillPrice pOpt mp) q)
        ∧ ((checkPosition cfg.riskLimit
            (sellNewPosition st.position (fillPrice pOpt mp) q)).1 = false →
          (strategySell cfg st q pOpt mp d).2 =
            some ("持仓未通过风险检查: " ++ (checkPosition cfg.riskLimit
              (sellNewPosition st.position (fillPrice pOpt mp) q)).2)
          ∧ (strategySell cfg st q pOpt mp d).1.position.quantity =
              st.position.quantity
          ∧ (strategySell cfg st q pOpt mp d).1.position.avg_price =
              st.position.avg_price
          ∧ (strategySell cfg st q pOpt mp d).1.risk = st.risk
          ∧ (strategySell cfg st q pOpt mp d).1.total_commission =
              st.total_commission +
                fillCommission cfg.commission_rate (fillPrice pOpt mp) q
          ∧ (strategySell cfg st q pOpt mp d).1.total_pnl =
              st.total_pnl +
                sellClosingRealized st.position (fillPrice pOpt mp) q)) := by
  intro cfg st q pOpt mp d
  constructor
  · intro hv
    constructor
    · simp only [strategyBuy]
      rw [if_pos hv]
    · simp only [strategySell]
      rw [if_pos hv]
  · intro hv
    have hv' : ¬ ((validateTradeParams cfg st q pOpt mp).1 = false) := by
      simp [hv]
    constructor
    · intro hpc
      simp only [strategyBuy]
      rw [if_neg hv', if_pos hpc]
      exact ⟨rfl, rfl, rfl, rfl, rfl, rfl⟩
    · intro hpc
      simp only [strategySell]
      rw [if_neg hv', if_pos hpc]
      exact ⟨rfl, rfl, rfl, rfl, rfl, rfl⟩

/-- **C4, witness** for `C4_risk_refusal`: a `check_order` refusal for a
nonpositive quantity, and the commission equation at the
`check_position`-refused buy of the counterexample's configuration. -/
theorem C4_risk_refusal_witness :
    strategyBuy ⟨⟨1000000, 10, 1/10, 1000000, 10000, 100, 1, 0, 0, 0⟩, 1/1000⟩
      (initialStratState ⟨0, 0⟩) (-1) none 100 0 =
      (initialStratState ⟨0, 0⟩, some "交易数量必须大于0")
    ∧ (strategyBuy ⟨⟨1000000, 10, 1/10, 1000000, 10000, 100, 1, 0, 0, 0⟩, 1/1000⟩
        (initialStratState ⟨0, 0⟩) 1 (some 500) 500 0).1.total_commission =
      (initialStratState ⟨0, 0⟩).total_commission +
        fillCommission (1/1000) (fillPrice (some 500) 500) 1 := by
  constructor
  · have h := (C4_risk_refusal
      ⟨⟨1000000, 10, 1/10, 1000000, 10000, 100, 1, 0, 0, 0⟩, 1/1000⟩
      (initialStratState ⟨0, 0⟩) (-1) none 100 0).1
      (by norm_num [validateTradeParams])
    rw [h.1]
    norm_num [validateTradeParams]
  · have h := ((C4_risk_refusal
      ⟨⟨1000000, 10, 1/10, 1000000, 10000, 100, 1, 0, 0, 0⟩, 1/1000⟩
      (initialStratState ⟨0, 0⟩) 1 (some 500) 500 0).2
      (by norm_num [validateTradeParams, checkOrder, orderEffPrice,
        position_value, initialStratState])).1
      (by norm_num [checkPosition, margin_ratio, position_value,
        buyNewPosition, fillPrice, initialStratState])
    exact h.2.2.2.2.1

/-- **C10, witness** for `C10_oversell_guard` at a concrete position. -/
theorem C10_oversell_guard_witness :
    updatePosition ⟨1, 10, 0, 0, 1⟩ 2 5 false =
      (⟨1, 10, 0, 0, 1⟩, some "卖出数量大于持仓数量")
    ∧ 0 ≤ (updatePosition ⟨1, 10, 0, 0, 1⟩ 1 5 false).1.quantity :=
  ⟨C10_oversell_guard.1 ⟨1, 10, 0, 0, 1⟩ 2 5 (by norm_num),
   C10_oversell_guard.2 ⟨1, 10, 0, 0, 1⟩ 1 5 false (by norm_num) (by norm_num)⟩

end MoneyMaster
